import Mathlib

/-!
Verification of the AQLon agent control loop (husainf4l/aqlonv4).

This file shallowly embeds the core control-loop components of the
repository in Lean 4 and proves (or refutes) the frozen claims about them:

* `app/graph.py` — the workflow loop: `goal_completion_check_node`,
  `should_continue`, and the loop routing.
* `app/nodes/safety.py` — the safety gate: `is_command_safe`,
  `is_code_safe`, `handle_unsafe_action`, `set_safety_level`.
* `app/nodes/retry.py` — the retry coordinator: `RetryState.record_attempt`
  and `RetryState.can_retry_now`.
* `app/nodes/goal_completion.py` — the completion voter aggregation
  `GoalCompletionChecker.check_completion`.
* `app/nodes/goal_prioritizer.py` — the priority scorer
  `GoalPrioritizer.calculate_priority_score` and its sub-evaluators.
* `app/nodes/manual_override.py` — `ManualOverrideManager.handle_override`
  for the `safety/disable` override.

Python floats are modelled as rationals (`ℚ`), Python ints as `Int`,
Python substring containment (`needle in haystack`) via `String.splitOn`.
Operations whose Python counterpart can raise an exception are modelled
with `Option` (`none` = the call raises).
-/

namespace Aqlon

/-- Whether the first character list is an initial segment of the second. -/
def charsStartWith : List Char → List Char → Bool
  | [], _ => true
  | _ :: _, [] => false
  | a :: as, b :: bs => a == b && charsStartWith as bs

/-- Whether the first character list occurs contiguously inside the second. -/
def charsContain (pat : List Char) : List Char → Bool
  | [] => pat.isEmpty
  | c :: cs => charsStartWith pat (c :: cs) || charsContain pat cs

/-- Python substring test `pat in s`: true iff `pat` occurs in `s`. -/
def strContains (s pat : String) : Bool :=
  charsContain pat.toList s.toList

/-- Python `pat in s.lower()`: substring test after ASCII lowercasing,
modelling `str.lower` by `Char.toLower` on each character. -/
def strContainsLower (s pat : String) : Bool :=
  charsContain pat.toList (s.toList.map Char.toLower)

/-! ## The workflow blackboard and the completion-check step (`app/graph.py`) -/

/-- The fields of the pydantic `AgentState` blackboard that
`goal_completion_check_node` and `should_continue` read or write.
`max_iterations` is read with `getattr(state, "max_iterations", 3)`;
we model it as a field (the claims quantify over its value). -/
structure AgentState where
  goal : String
  goal_complete : Bool
  internal_loop_counter : Int
  max_iterations : Int
  action_success : Bool
  action_completed_goal : Bool
  status_message : String
deriving Repr, DecidableEq

/-- The status message written when the loop stops at the iteration cap
(`graph.py` line 52). -/
def maxIterationsMessage (maxIterations : Int) : String :=
  "Goal processing stopped after reaching maximum iterations (" ++
    toString maxIterations ++ ")"

/-- The status message written on ordinary completion (`graph.py` line 54). -/
def successMessage : String := "Goal processing completed successfully"

/-- The suffix appended to the goal text on completion (`graph.py` lines 47-48). -/
def goalCompleteSuffix : String := " (Goal complete!)"

/-- Embedding of `goal_completion_check_node` (`app/graph.py` lines 12-58).
It increments the loop counter, evaluates the completion disjunction,
sets `goal_complete`, and on completion appends the suffix (only when not
already present) and writes the status message. -/
def goal_completion_check_node (s : AgentState) : AgentState :=
  let loopCounter := s.internal_loop_counter + 1
  let shouldComplete : Bool :=
    strContainsLower s.goal "done" ||
    decide (loopCounter ≥ s.max_iterations) ||
    s.goal_complete ||
    (s.action_success && s.action_completed_goal)
  let s1 := { s with internal_loop_counter := loopCounter,
                     goal_complete := shouldComplete }
  if shouldComplete then
    let g2 := if strContains s1.goal goalCompleteSuffix then s1.goal
              else s1.goal ++ goalCompleteSuffix
    let msg := if decide (loopCounter ≥ s.max_iterations) then
                 maxIterationsMessage s.max_iterations
               else successMessage
    { s1 with goal := g2, status_message := msg }
  else s1

/-- Embedding of the router `should_continue` (`app/graph.py` lines 122-126). -/
def should_continue (s : AgentState) : String :=
  if s.goal_complete then "exit" else "continue"

/-! A run of the workflow loop. Between two passes through
`goal_completion_check_node`, the other nodes of the cycle
(goal generator, optimization, planner, action, memory) may rewrite the
goal text and the action-outcome flags, but none of them writes
`internal_loop_counter`, `max_iterations`, `goal_complete` or
`status_message` (checked against `app/graph.py` and the node sources).
We model one cycle as: the rest of the loop installs a goal text and
action flags, then the completion check runs. -/

/-- One full cycle of the loop ending in the completion check: the other
nodes set the goal text `g` and the action flags `a`, then
`goal_completion_check_node` runs. -/
def runPass (g : String) (a : Bool × Bool) (s : AgentState) : AgentState :=
  goal_completion_check_node
    { s with goal := g, action_success := a.1, action_completed_goal := a.2 }

/-- The blackboard after `n` passes through the completion check, where
`gs k` is the goal text and `as k` the pair
(`action_success`, `action_completed_goal`) installed by the other nodes
before pass `k`. -/
def run (s0 : AgentState) (gs : ℕ → String) (acts : ℕ → Bool × Bool) :
    ℕ → AgentState
  | 0 => s0
  | n + 1 => runPass (gs n) (acts n) (run s0 gs acts n)

/-! ### Basic lemmas about the completion-check step -/

lemma check_max_iterations (s : AgentState) :
    (goal_completion_check_node s).max_iterations = s.max_iterations := by
  unfold goal_completion_check_node
  dsimp only
  split <;> rfl

lemma check_internal_loop_counter (s : AgentState) :
    (goal_completion_check_node s).internal_loop_counter =
      s.internal_loop_counter + 1 := by
  unfold goal_completion_check_node
  dsimp only
  split <;> rfl

lemma check_goal_complete (s : AgentState) :
    (goal_completion_check_node s).goal_complete =
      (strContainsLower s.goal "done" ||
       decide (s.internal_loop_counter + 1 ≥ s.max_iterations) ||
       s.goal_complete ||
       (s.action_success && s.action_completed_goal)) := by
  unfold goal_completion_check_node
  dsimp only
  split <;> rfl

lemma check_status_at_cap (s : AgentState)
    (hcap : s.internal_loop_counter + 1 ≥ s.max_iterations)
    (hc : (goal_completion_check_node s).goal_complete = true) :
    (goal_completion_check_node s).status_message =
      maxIterationsMessage s.max_iterations := by
  rw [check_goal_complete] at hc
  unfold goal_completion_check_node
  dsimp only
  rw [if_pos hc]
  dsimp only
  rw [if_pos (show decide (s.internal_loop_counter + 1 ≥ s.max_iterations) = true
        from decide_eq_true hcap)]

lemma check_appends_suffix (s : AgentState)
    (hc : (goal_completion_check_node s).goal_complete = true)
    (habs : strContains s.goal goalCompleteSuffix = false) :
    (goal_completion_check_node s).goal = s.goal ++ goalCompleteSuffix := by
  rw [check_goal_complete] at hc
  unfold goal_completion_check_node
  dsimp only
  rw [if_pos hc]
  dsimp only
  rw [habs]
  rfl

lemma check_suffix_idempotent (s : AgentState)
    (hpres : strContains s.goal goalCompleteSuffix = true) :
    (goal_completion_check_node s).goal = s.goal := by
  unfold goal_completion_check_node
  dsimp only
  split <;> simp [hpres]

lemma should_continue_exit (s : AgentState) (h : s.goal_complete = true) :
    should_continue s = "exit" := by
  simp [should_continue, h]

/-! ### Lemmas about a run of the loop -/

lemma run_max_iterations (s0 : AgentState) (gs : ℕ → String)
    (acts : ℕ → Bool × Bool) (n : ℕ) :
    (run s0 gs acts n).max_iterations = s0.max_iterations := by
  induction n with
  | zero => rfl
  | succ n ih =>
      rw [run, runPass, check_max_iterations]
      exact ih

lemma run_internal_loop_counter (s0 : AgentState) (gs : ℕ → String)
    (acts : ℕ → Bool × Bool) (n : ℕ) :
    (run s0 gs acts n).internal_loop_counter =
      s0.internal_loop_counter + n := by
  induction n with
  | zero => simp [run]
  | succ n ih =>
      rw [run, runPass, check_internal_loop_counter]
      dsimp only
      rw [ih]
      push_cast
      omega

/-- Under the claim's hypotheses (no completion marker, no action-reported
completion), pass `n + 1` completes exactly when the incremented counter
has reached the iteration cap, or a previous pass already completed. -/
lemma run_goal_complete_step (s0 : AgentState) (gs : ℕ → String)
    (acts : ℕ → Bool × Bool)
    (hg : ∀ n, strContainsLower (gs n) "done" = false)
    (ha : ∀ n, (acts n).1 = false) (n : ℕ) :
    (run s0 gs acts (n + 1)).goal_complete =
      (decide (s0.internal_loop_counter + (n + 1 : ℕ) ≥ s0.max_iterations) ||
       (run s0 gs acts n).goal_complete) := by
  rw [run, runPass, check_goal_complete]
  dsimp only
  rw [hg n, ha n, run_internal_loop_counter, run_max_iterations]
  simp only [Bool.false_and, Bool.false_or, Bool.or_false]
  have harg : s0.internal_loop_counter + (n : ℤ) + 1 =
      s0.internal_loop_counter + ((n + 1 : ℕ) : ℤ) := by
    push_cast
    ring
  rw [harg]

/-- With an initially-unset completion flag, the flag after pass `n + 1`
is exactly "the incremented counter has reached the cap". -/
lemma run_goal_complete_formula (s0 : AgentState) (gs : ℕ → String)
    (acts : ℕ → Bool × Bool)
    (h0 : s0.goal_complete = false)
    (hg : ∀ n, strContainsLower (gs n) "done" = false)
    (ha : ∀ n, (acts n).1 = false) :
    ∀ n : ℕ, (run s0 gs acts (n + 1)).goal_complete =
      decide (s0.internal_loop_counter + (n + 1 : ℕ) ≥ s0.max_iterations) := by
  intro n
  induction n with
  | zero =>
      rw [run_goal_complete_step s0 gs acts hg ha 0]
      simp [run, h0]
  | succ n ih =>
      rw [run_goal_complete_step s0 gs acts hg ha (n + 1), ih]
      rcases Decidable.em
          (s0.internal_loop_counter + ((n + 1 : ℕ) : ℤ) ≥ s0.max_iterations) with h | h
      · have h2 : s0.internal_loop_counter + ((n + 1 + 1 : ℕ) : ℤ) ≥ s0.max_iterations := by
          push_cast at h ⊢
          omega
        rw [decide_eq_true h, decide_eq_true h2, Bool.true_or]
      · rw [decide_eq_false h, Bool.or_false]

/-- C1, amended part: from any initial blackboard whose loop counter is
nonnegative and whose iteration cap is at least 1, with an unset
completion flag, goal texts never containing the marker and every action
reporting failure, some pass `k ≤ maxIterations` sets `goal_complete`
and the router then exits. -/
theorem aqlon_c1_loop_terminates (s0 : AgentState) (gs : ℕ → String)
    (acts : ℕ → Bool × Bool)
    (h0 : s0.goal_complete = false)
    (hc0 : 0 ≤ s0.internal_loop_counter)
    (hm : 1 ≤ s0.max_iterations)
    (hg : ∀ n, strContainsLower (gs n) "done" = false)
    (ha : ∀ n, (acts n).1 = false) :
    ∃ k : ℕ, 1 ≤ k ∧ (k : Int) ≤ s0.max_iterations ∧
      (run s0 gs acts k).goal_complete = true ∧
      should_continue (run s0 gs acts k) = "exit" := by
  by_cases hfirst : s0.internal_loop_counter + 1 ≥ s0.max_iterations
  · refine ⟨1, le_refl 1, by exact_mod_cast hm, ?_, ?_⟩
    · rw [run_goal_complete_formula s0 gs acts h0 hg ha 0]
      simpa using hfirst
    · apply should_continue_exit
      rw [run_goal_complete_formula s0 gs acts h0 hg ha 0]
      simpa using hfirst
  · push_neg at hfirst
    set k := (s0.max_iterations - s0.internal_loop_counter).toNat with hkdef
    have hk1 : 1 ≤ k := by omega
    have hkm : (k : Int) ≤ s0.max_iterations := by omega
    have hgc : (run s0 gs acts k).goal_complete = true := by
      obtain ⟨j, hj⟩ : ∃ j, k = j + 1 := ⟨k - 1, by omega⟩
      rw [hj, run_goal_complete_formula s0 gs acts h0 hg ha j, decide_eq_true_eq]
      push_cast
      omega
    exact ⟨k, hk1, hkm, hgc, should_continue_exit _ hgc⟩

/-- Closed instance of `aqlon_c1_loop_terminates`: goal "go", counter 0,
`max_iterations = 2`, all completion signals held false. -/
theorem aqlon_c1_witness :
    ∃ k : ℕ, 1 ≤ k ∧
      (k : Int) ≤ (AgentState.mk "go" false 0 2 false false "").max_iterations ∧
      (run (AgentState.mk "go" false 0 2 false false "")
        (fun _ => "work") (fun _ => (false, false)) k).goal_complete = true ∧
      should_continue (run (AgentState.mk "go" false 0 2 false false "")
        (fun _ => "work") (fun _ => (false, false)) k) = "exit" :=
  aqlon_c1_loop_terminates _ _ _ rfl (by decide) (by decide)
    (fun _ => by decide) (fun _ => rfl)

/-- C1 counterexample: the claim quantifies over every initial blackboard
state and every `maxIterations` value, but with an initial loop counter of
-1 (the blackboard field `internal_loop_counter` is an unconstrained
`Optional[int]`) and `max_iterations = 1`, after 1 pass — that is, after
`maxIterations` passes through the completion check — the completion flag
is still unset and the router still says "continue". -/
theorem aqlon_c1_counterexample :
    (run ⟨"", false, -1, 1, false, false, ""⟩
       (fun _ => "") (fun _ => (false, false)) 1).goal_complete = false ∧
    should_continue (run ⟨"", false, -1, 1, false, false, ""⟩
       (fun _ => "") (fun _ => (false, false)) 1) = "continue" := by
  constructor <;> rfl

/-- C2: (i) a goal text containing the completion marker completes on the
first pass, where the loop counter becomes 1; (ii) with no marker, no
explicit flag, no action-reported completion and `max_iterations = 3`,
`goal_complete` becomes true exactly on the pass where the counter reaches
3, with the "max iterations" status message; (iii) on completion the
suffix is appended when absent; (iv) a check on an already-suffixed goal
leaves the goal text unchanged. -/
theorem aqlon_c2_completion_check :
    (∀ s : AgentState, strContainsLower s.goal "done" = true →
       s.internal_loop_counter = 0 →
       (goal_completion_check_node s).internal_loop_counter = 1 ∧
       (goal_completion_check_node s).goal_complete = true) ∧
    (∀ (s0 : AgentState) (gs : ℕ → String) (acts : ℕ → Bool × Bool),
       s0.goal_complete = false → s0.internal_loop_counter = 0 →
       s0.max_iterations = 3 →
       (∀ n, strContainsLower (gs n) "done" = false) →
       (∀ n, (acts n).1 = false) →
       (run s0 gs acts 1).goal_complete = false ∧
       (run s0 gs acts 2).goal_complete = false ∧
       (run s0 gs acts 3).goal_complete = true ∧
       (run s0 gs acts 3).status_message = maxIterationsMessage 3) ∧
    (∀ s : AgentState, (goal_completion_check_node s).goal_complete = true →
       strContains s.goal goalCompleteSuffix = false →
       (goal_completion_check_node s).goal = s.goal ++ goalCompleteSuffix) ∧
    (∀ s : AgentState, strContains s.goal goalCompleteSuffix = true →
       (goal_completion_check_node s).goal = s.goal) := by
  refine ⟨?_, ?_, check_appends_suffix, check_suffix_idempotent⟩
  · intro s hmark h0
    refine ⟨?_, ?_⟩
    · rw [check_internal_loop_counter, h0]
      norm_num
    · rw [check_goal_complete, hmark, Bool.true_or, Bool.true_or, Bool.true_or]
  · intro s0 gs acts h0 hc0 hmax hg ha
    have f1 := run_goal_complete_formula s0 gs acts h0 hg ha 0
    have f2 := run_goal_complete_formula s0 gs acts h0 hg ha 1
    have f3 := run_goal_complete_formula s0 gs acts h0 hg ha 2
    rw [hc0, hmax] at f1 f2 f3
    norm_num at f1 f2 f3
    refine ⟨f1, f2, f3, ?_⟩
    have hrw : run s0 gs acts 3 = goal_completion_check_node
        { run s0 gs acts 2 with
            goal := gs 2,
            action_success := (acts 2).1,
            action_completed_goal := (acts 2).2 } := rfl
    have hmax2 : ({ run s0 gs acts 2 with
        goal := gs 2,
        action_success := (acts 2).1,
        action_completed_goal := (acts 2).2 } : AgentState).max_iterations = 3 := by
      show (run s0 gs acts 2).max_iterations = 3
      rw [run_max_iterations]
      exact hmax
    have hcnt2 : ({ run s0 gs acts 2 with
        goal := gs 2,
        action_success := (acts 2).1,
        action_completed_goal := (acts 2).2 } : AgentState).internal_loop_counter = 2 := by
      show (run s0 gs acts 2).internal_loop_counter = 2
      rw [run_internal_loop_counter, hc0]
      norm_num
    rw [hrw]
    have hstat := check_status_at_cap
      { run s0 gs acts 2 with
          goal := gs 2,
          action_success := (acts 2).1,
          action_completed_goal := (acts 2).2 }
      (by rw [hcnt2, hmax2]; norm_num)
      (by rw [← hrw]; exact f3)
    rw [hstat, hmax2]

/-- Closed instance of `aqlon_c2_completion_check`: each conjunct applied
at a concrete blackboard. -/
theorem aqlon_c2_witness :
    ((goal_completion_check_node
        (AgentState.mk "all Done now" false 0 3 false false "")).internal_loop_counter = 1 ∧
     (goal_completion_check_node
        (AgentState.mk "all Done now" false 0 3 false false "")).goal_complete = true) ∧
    ((run (AgentState.mk "w" false 0 3 false false "")
        (fun _ => "work") (fun _ => (false, false)) 1).goal_complete = false ∧
     (run (AgentState.mk "w" false 0 3 false false "")
        (fun _ => "work") (fun _ => (false, false)) 2).goal_complete = false ∧
     (run (AgentState.mk "w" false 0 3 false false "")
        (fun _ => "work") (fun _ => (false, false)) 3).goal_complete = true ∧
     (run (AgentState.mk "w" false 0 3 false false "")
        (fun _ => "work") (fun _ => (false, false)) 3).status_message =
       maxIterationsMessage 3) ∧
    ((goal_completion_check_node
        (AgentState.mk "task is done" false 0 3 false false "")).goal =
       "task is done" ++ goalCompleteSuffix) ∧
    ((goal_completion_check_node
        (AgentState.mk "x (Goal complete!)" true 0 3 false false "")).goal =
       "x (Goal complete!)") :=
  ⟨aqlon_c2_completion_check.1 _ (by decide) rfl,
   aqlon_c2_completion_check.2.1 _ _ _ rfl rfl rfl (fun _ => by decide) (fun _ => rfl),
   aqlon_c2_completion_check.2.2.1 _ (by decide) (by decide),
   aqlon_c2_completion_check.2.2.2 _ (by decide)⟩

/-! ## The safety gate (`app/nodes/safety.py`)

Regular-expression matching (`re.search`, case-insensitive) is kept
abstract: checks are parameterized by a matcher `m : String → String →
Bool` taking the pattern and the text. The built-in pattern lists are the
literal pattern strings of `SafetyManager.__init__` (braces and quotes
written with `\x7b`, `\x7d`, `\x27` escapes). For concrete
counterexamples the matcher is instantiated with plain substring search,
which is a special case of regex search. -/

/-- The default unsafe terminal-command patterns
(`SafetyManager.__init__`, `self.unsafe_commands`). -/
def unsafe_commands : List String :=
  [ "rm\\s+(-[rf]\\s+)*(/|~/|\\$\x7b?HOME\x7d?)",
    "chmod\\s+-[R]*.+\\s+(/|~/|\\$\x7b?HOME\x7d?)",
    "chown\\s+-[R]*.+\\s+(/|~/|\\$\x7b?HOME\x7d?)",
    "mkfs",
    "dd\\s+.*of=/dev/([sh]d[a-z]|disk\\d+)",
    "(shutdown|reboot|halt)",
    "nmap\\s+-[p]\\s+.*",
    ":()\x7b:|\\:&\x7d;:",
    "echo.+[|]\\s*ssh",
    ">\\s*/etc/passwd",
    ">\\s*/etc/shadow",
    "(wget|curl)\\s+.*(\\.sh)\\s+[|]\\s*(bash|sh)",
    "os\\.system\\(\\s*[\x27\"]rm\\s+-[rf]",
    "shutil\\.rmtree\\(\\s*[\x27\"]?/",
    "__import__\\([\x27\"]os[\x27\"].*system" ]

/-- The default unsafe code patterns
(`SafetyManager.__init__`, `self.unsafe_code_patterns`). -/
def unsafe_code_patterns : List String :=
  [ "eval\\s*\\(.*(?:request|input)",
    "exec\\s*\\(.*(?:request|input)",
    "subprocess\\.(?:call|Popen|run)\\s*\\(.*\\+.*(?:request|input)",
    "os\\.(?:system|popen)\\s*\\(.*\\+.*(?:request|input)",
    "(?:execute|executemany)\\s*\\(.*\\+.*(?:request|input)",
    "(?:execute|executemany)\\s*\\(f[\x27\"].*\\\x7b.*(?:request|input)",
    "(?:pickle|yaml|marshal)\\.loads\\s*\\(.*(?:request|input)",
    "open\\s*\\(.*\\+.*(?:request|input)",
    "(?:urlopen|Request)\\s*\\(.*\\+.*(?:request|input)" ]

/-- A custom unsafe pattern registered at runtime via
`SafetyManager.add_unsafe_pattern`: the pattern string and its
(possibly empty) description. -/
structure CustomPattern where
  pattern : String
  description : String
deriving Repr, DecidableEq

/-- The first pattern of the list that matches the text, in list order. -/
def firstMatch (m : String → String → Bool) (pats : List String)
    (text : String) : Option String :=
  pats.find? (fun p => m p text)

/-- Embedding of `SafetyManager.is_command_safe` (`safety.py` lines
106-128): at level 0 everything is safe; otherwise the built-in command
patterns are scanned first, then the custom patterns; the first match
wins and produces the reason. An empty custom description falls back to
the generic reason (Python `custom.get("description") or ...`). -/
def is_command_safe (m : String → String → Bool)
    (customs : List CustomPattern) (level : Int) (command : String) :
    Bool × Option String :=
  if level = 0 then (true, none)
  else
    match firstMatch m unsafe_commands command with
    | some p => (false, some ("Command matches unsafe pattern: " ++ p))
    | none =>
        match customs.find? (fun c => m c.pattern command) with
        | some c =>
            (false, some (if c.description = "" then
              "Command matches custom unsafe pattern" else c.description))
        | none => (true, none)

/-- Embedding of `SafetyManager.is_code_safe` (`safety.py` lines
130-145): at level 0 everything is safe; otherwise only the built-in
code patterns are scanned — the method never consults
`custom_unsafe_patterns` (the parameter is kept to make that fact
statable). -/
def is_code_safe (m : String → String → Bool)
    (customs : List CustomPattern) (level : Int) (code : String) :
    Bool × Option String :=
  if level = 0 then (true, none)
  else
    match firstMatch m unsafe_code_patterns code with
    | some p => (false, some ("Code matches unsafe pattern: " ++ p))
    | none => (true, none)

/-- The response object of `handle_unsafe_action`. -/
structure ActionResponse where
  status : String
  message : String
  reason : Option String
deriving Repr, DecidableEq

/-- Embedding of `SafetyManager.handle_unsafe_action` (`safety.py` lines
147-188): dispatch on the action type, then branch on the safety level
for unsafe content. An unknown action type is marked unsafe before the
level is consulted, so at level 0 it falls through to the final
invalid-level response. -/
def handle_unsafe_action (m : String → String → Bool)
    (customs : List CustomPattern) (level : Int)
    (action_type action_content : String) : ActionResponse :=
  let checked : Bool × Option String :=
    if action_type = "command" then is_command_safe m customs level action_content
    else if action_type = "code" then is_code_safe m customs level action_content
    else (false, some ("Unknown action type: " ++ action_type))
  let reasonText : String := match checked.2 with
    | some r => r
    | none => "None"
  if checked.1 then
    { status := "allowed", message := "Action is safe", reason := none }
  else if level = 1 then
    { status := "allowed_with_warning",
      message := "Potentially unsafe action detected: " ++ reasonText,
      reason := checked.2 }
  else if level = 2 then
    { status := "blocked",
      message := "Action blocked for safety: " ++ reasonText,
      reason := checked.2 }
  else
    { status := "error",
      message := "Invalid safety level: " ++ toString level,
      reason := none }

/-- Embedding of `SafetyManager.set_safety_level` (`safety.py` lines
88-96): an invalid level is rejected (logged) and the current level is
kept; a valid level replaces it. -/
def set_safety_level (current : Int) (level : Int) : Int :=
  if level = 0 ∨ level = 1 ∨ level = 2 then level else current

/-- The field initialization `self.safety_level = 2` in
`SafetyManager.__init__` (`safety.py` line 75). -/
def initial_safety_level : Int := 2

/-- A valid safety level: 0 (off), 1 (warn) or 2 (block). -/
def validSafetyLevel (l : Int) : Prop := l = 0 ∨ l = 1 ∨ l = 2

instance : DecidablePred validSafetyLevel := fun l => by
  unfold validSafetyLevel
  infer_instance

/-- Plain substring search, a concrete instance of the abstract regex
matcher (every substring occurrence is a regex match of the literal). -/
def substrMatch (p text : String) : Bool := strContains text p

/-! ### Claims C4, C5, C10 -/

/-- C4 counterexample: at safety level 0 an action of unknown kind is
first marked unsafe by the dispatch (`Unknown action type`), and because
the level is neither 1 nor 2, the function falls through to the
invalid-level branch and returns status "error", not "allowed". -/
theorem aqlon_c4_counterexample :
    (handle_unsafe_action substrMatch [] 0 "browser" "rm -rf /").status = "error" ∧
    (handle_unsafe_action substrMatch [] 0 "browser" "rm -rf /").status ≠ "allowed" := by
  constructor
  · rfl
  · decide

/-- C4, amended: at safety level 0, `handle_unsafe_action` returns the
"allowed" response for the action kinds "command" and "code", for every
content string; and the result does not depend on the matcher or the
registered custom patterns (the pattern lists are never evaluated). -/
theorem aqlon_c4_level0_allows (m m2 : String → String → Bool)
    (customs customs2 : List CustomPattern) (content : String)
    (t : String) (ht : t = "command" ∨ t = "code") :
    handle_unsafe_action m customs 0 t content =
      { status := "allowed", message := "Action is safe", reason := none } ∧
    handle_unsafe_action m customs 0 t content =
      handle_unsafe_action m2 customs2 0 t content := by
  rcases ht with h | h <;> subst h <;>
    constructor <;> rfl

/-- Closed instance of `aqlon_c4_level0_allows` on a recursive-delete-root
command. -/
theorem aqlon_c4_witness :
    handle_unsafe_action substrMatch [] 0 "command" "rm -rf /" =
      { status := "allowed", message := "Action is safe", reason := none } ∧
    handle_unsafe_action substrMatch [] 0 "command" "rm -rf /" =
      handle_unsafe_action (fun _ _ => true) [⟨"rm", "danger"⟩] 0 "command" "rm -rf /" :=
  aqlon_c4_level0_allows substrMatch (fun _ _ => true) [] [⟨"rm", "danger"⟩]
    "rm -rf /" "command" (Or.inl rfl)

/-- C5 counterexample: a code snippet matching only a registered custom
pattern is reported safe by `is_code_safe` at level 2 — the code check
never consults the custom patterns. The matcher is plain substring
search; no built-in code pattern occurs in the snippet, the custom
pattern does. -/
theorem aqlon_c5_counterexample :
    substrMatch "EVILPAT" "run EVILPAT now" = true ∧
    (∀ p ∈ unsafe_code_patterns, substrMatch p "run EVILPAT now" = false) ∧
    (is_code_safe substrMatch [⟨"EVILPAT", "custom rule"⟩] 2
       "run EVILPAT now").1 = true := by
  refine ⟨rfl, ?_, rfl⟩
  decide

/-- C5, amended: at a nonzero safety level the command check scans the
built-in patterns first and then the custom patterns, first match wins —
it is unsafe exactly when some built-in or custom pattern matches, and a
matching built-in pattern takes precedence in the reported reason. The
code check, however, never consults the custom patterns: its result is
independent of them, and content matching no built-in code pattern is
reported safe even when a custom pattern matches. -/
theorem aqlon_c5_pattern_precedence (m : String → String → Bool)
    (customs : List CustomPattern) (level : Int) (cmd code : String)
    (hlevel : level ≠ 0) :
    ((is_command_safe m customs level cmd).1 = false ↔
      ((∃ p ∈ unsafe_commands, m p cmd = true) ∨
       (∃ c ∈ customs, m c.pattern cmd = true))) ∧
    (∀ p, firstMatch m unsafe_commands cmd = some p →
      is_command_safe m customs level cmd =
        (false, some ("Command matches unsafe pattern: " ++ p))) ∧
    (∀ customs2, is_code_safe m customs level code =
      is_code_safe m customs2 level code) ∧
    ((∀ p ∈ unsafe_code_patterns, m p code = false) →
      (is_code_safe m customs level code).1 = true) := by
  refine ⟨?_, ?_, ?_, ?_⟩
  · rw [is_command_safe, if_neg hlevel]
    cases hfm : firstMatch m unsafe_commands cmd with
    | some p =>
        have hmem := List.mem_of_find?_eq_some hfm
        have hmp := List.find?_some hfm
        exact ⟨fun _ => Or.inl ⟨p, hmem, by simpa using hmp⟩, fun _ => rfl⟩
    | none =>
        cases hcu : customs.find? (fun c => m c.pattern cmd) with
        | some c =>
            have hmem := List.mem_of_find?_eq_some hcu
            have hmc := List.find?_some hcu
            exact ⟨fun _ => Or.inr ⟨c, hmem, by simpa using hmc⟩, fun _ => rfl⟩
        | none =>
            constructor
            · intro hfalse
              exact absurd hfalse (by simp)
            · rintro (⟨p, hp, hmp⟩ | ⟨c, hc, hmc⟩)
              · rw [firstMatch, List.find?_eq_none] at hfm
                exact absurd hmp (by simpa using hfm p hp)
              · rw [List.find?_eq_none] at hcu
                exact absurd hmc (by simpa using hcu c hc)
  · intro p hp
    rw [is_command_safe, if_neg hlevel, hp]
  · intro customs2
    rfl
  · intro hnone
    rw [is_code_safe, if_neg hlevel]
    have hfm : firstMatch m unsafe_code_patterns code = none := by
      rw [firstMatch, List.find?_eq_none]
      intro p hp
      simpa using hnone p hp
    rw [hfm]

/-- Closed instance of `aqlon_c5_pattern_precedence`: a command matching
only the custom pattern is reported unsafe by the command check, while
`is_code_safe` ignores the same custom pattern. -/
theorem aqlon_c5_witness :
    ((is_command_safe substrMatch [⟨"EVILPAT", "custom rule"⟩] 2
        "run EVILPAT now").1 = false ↔
      ((∃ p ∈ unsafe_commands, substrMatch p "run EVILPAT now" = true) ∨
       (∃ c ∈ ([⟨"EVILPAT", "custom rule"⟩] : List CustomPattern),
          substrMatch c.pattern "run EVILPAT now" = true))) ∧
    (∀ p, firstMatch substrMatch unsafe_commands "run EVILPAT now" = some p →
      is_command_safe substrMatch [⟨"EVILPAT", "custom rule"⟩] 2 "run EVILPAT now" =
        (false, some ("Command matches unsafe pattern: " ++ p))) ∧
    (∀ customs2,
      is_code_safe substrMatch [⟨"EVILPAT", "custom rule"⟩] 2 "run EVILPAT now" =
        is_code_safe substrMatch customs2 2 "run EVILPAT now") ∧
    ((∀ p ∈ unsafe_code_patterns, substrMatch p "run EVILPAT now" = false) →
      (is_code_safe substrMatch [⟨"EVILPAT", "custom rule"⟩] 2
         "run EVILPAT now").1 = true) :=
  aqlon_c5_pattern_precedence substrMatch [⟨"EVILPAT", "custom rule"⟩] 2
    "run EVILPAT now" "run EVILPAT now" (by decide)

/-- C10: the safety level starts at 2, an out-of-range request leaves the
level unchanged (and raises nothing — `set_safety_level` just returns),
and therefore after any sequence of `set_safety_level` requests the
level is one of 0, 1, 2. -/
theorem aqlon_c10_safety_level_invariant :
    validSafetyLevel initial_safety_level ∧
    (∀ current level, ¬ validSafetyLevel level →
      set_safety_level current level = current) ∧
    (∀ requests : List Int,
      validSafetyLevel (requests.foldl set_safety_level initial_safety_level)) := by
  have hstep : ∀ current level, validSafetyLevel current →
      validSafetyLevel (set_safety_level current level) := by
    intro current level hcur
    by_cases h : level = 0 ∨ level = 1 ∨ level = 2
    · rw [set_safety_level, if_pos h]
      exact h
    · rw [set_safety_level, if_neg h]
      exact hcur
  refine ⟨Or.inr (Or.inr rfl), ?_, ?_⟩
  · intro current level hbad
    rw [set_safety_level]
    exact if_neg hbad
  · intro requests
    have : ∀ (reqs : List Int) (cur : Int), validSafetyLevel cur →
        validSafetyLevel (reqs.foldl set_safety_level cur) := by
      intro reqs
      induction reqs with
      | nil => intro cur hcur; exact hcur
      | cons r rest ih =>
          intro cur hcur
          exact ih (set_safety_level cur r) (hstep cur r hcur)
    exact this requests initial_safety_level (Or.inr (Or.inr rfl))

/-- Closed instance of `aqlon_c10_safety_level_invariant`: the initial
level is valid, the invalid request 7 is rejected unchanged, and a mixed
request sequence ends at a valid level. -/
theorem aqlon_c10_witness :
    validSafetyLevel initial_safety_level ∧
    set_safety_level 2 7 = 2 ∧
    validSafetyLevel ([0, 5, 1, 99].foldl set_safety_level initial_safety_level) :=
  ⟨aqlon_c10_safety_level_invariant.1,
   aqlon_c10_safety_level_invariant.2.1 2 7 (by decide),
   aqlon_c10_safety_level_invariant.2.2 [0, 5, 1, 99]⟩

/-! ## The retry coordinator (`app/nodes/retry.py`)

Wall-clock readings and the random jitter draw are passed as parameters:
`now` is the POSIX timestamp of `datetime.now()` and `jitterFactor`
models `1.0 + random.uniform(-0.25, 0.25)`. A Python value that is
either a `datetime` object or a float timestamp is modelled by `PyTime`;
comparing a `datetime` with a float raises `TypeError`, which
`can_retry_now` surfaces as `none`. -/

/-- A Python time value: a `datetime` object or a float POSIX timestamp.
The two are not comparable with `>=` in Python. -/
inductive PyTime
  | dt (t : ℚ)
  | ts (t : ℚ)
deriving Repr, DecidableEq

/-- The fields of `RetryState` (`retry.py` lines 17-34) the claims need. -/
structure RetryState where
  attempts : ℕ
  max_retries : ℕ
  base_delay : ℚ
  max_delay : ℚ
  jitter : Bool
  next_attempt_time : Option PyTime
deriving Repr, DecidableEq

/-- Embedding of `RetryState.can_retry_now` (`retry.py` lines 41-46):
`true` when no next attempt time has been set; otherwise the value of
`datetime.now() >= self.next_attempt_time`. The comparison is only
defined when the stored value is a `datetime`; against a float it raises
`TypeError`, modelled as `none`. -/
def can_retry_now (now : ℚ) (st : RetryState) : Option Bool :=
  match st.next_attempt_time with
  | none => some true
  | some (PyTime.dt t) => some (decide (now ≥ t))
  | some (PyTime.ts _) => none

/-- The backoff delay computed inside `record_attempt` (`retry.py` lines
63-69) for the attempt it is about to record (attempt number
`st.attempts + 1`): `min(base_delay * 2 ** (attempts - 1), max_delay)`,
multiplied by the jitter factor when jitter is enabled. -/
def backoff_delay (st : RetryState) (jitterFactor : ℚ) : ℚ :=
  let attempts := st.attempts + 1
  let delay := min (st.base_delay * 2 ^ (attempts - 1)) st.max_delay
  if st.jitter then delay * jitterFactor else delay

/-- Embedding of `RetryState.record_attempt` (`retry.py` lines 48-77):
increments `attempts` and stores `datetime.now().timestamp() + delay` —
a float timestamp, not a `datetime` — into `next_attempt_time`. -/
def record_attempt (now : ℚ) (jitterFactor : ℚ) (st : RetryState) :
    RetryState :=
  { st with
      attempts := st.attempts + 1,
      next_attempt_time :=
        some (PyTime.ts (now + backoff_delay st jitterFactor)) }

/-- C6: the delay computed by the `k`-th `record_attempt` (state with
`attempts = k - 1`) is exactly `min(base * 2^(k-1), max_delay)` when
jitter is disabled; with jitter enabled and a jitter factor in
`[3/4, 5/4]` (the range of `1.0 + random.uniform(-0.25, 0.25)`) it lies
within `[3/4, 5/4]` times that value; in both cases the stored next
attempt time is the current time plus the computed delay. -/
theorem aqlon_c6_backoff (st : RetryState) (now j : ℚ) :
    (st.jitter = false →
      backoff_delay st j =
        min (st.base_delay * 2 ^ st.attempts) st.max_delay ∧
      (record_attempt now j st).next_attempt_time =
        some (PyTime.ts
          (now + min (st.base_delay * 2 ^ st.attempts) st.max_delay))) ∧
    (st.jitter = true → 0 ≤ st.base_delay → 0 ≤ st.max_delay →
      3 / 4 ≤ j → j ≤ 5 / 4 →
      3 / 4 * min (st.base_delay * 2 ^ st.attempts) st.max_delay ≤
        backoff_delay st j ∧
      backoff_delay st j ≤
        5 / 4 * min (st.base_delay * 2 ^ st.attempts) st.max_delay ∧
      (record_attempt now j st).next_attempt_time =
        some (PyTime.ts (now + backoff_delay st j))) := by
  constructor
  · intro hj
    constructor
    · simp [backoff_delay, hj]
    · simp [record_attempt, backoff_delay, hj]
  · intro hj hbase hmax hj1 hj2
    have hd0 : 0 ≤ min (st.base_delay * 2 ^ st.attempts) st.max_delay :=
      le_min (mul_nonneg hbase (by positivity)) hmax
    have hdelay : backoff_delay st j =
        min (st.base_delay * 2 ^ st.attempts) st.max_delay * j := by
      simp [backoff_delay, hj]
    refine ⟨?_, ?_, rfl⟩
    · rw [hdelay]
      nlinarith
    · rw [hdelay]
      nlinarith

/-- Closed instances of `aqlon_c6_backoff`: the third attempt
(`attempts = 2`) of a tracker with base delay 1 and max delay 30,
once without jitter and once with jitter factor 9/10. -/
theorem aqlon_c6_witness :
    (backoff_delay ⟨2, 3, 1, 30, false, none⟩ 1 =
       min ((1 : ℚ) * 2 ^ 2) 30 ∧
     (record_attempt 100 1 ⟨2, 3, 1, 30, false, none⟩).next_attempt_time =
       some (PyTime.ts (100 + min ((1 : ℚ) * 2 ^ 2) 30))) ∧
    (3 / 4 * min ((1 : ℚ) * 2 ^ 2) 30 ≤
       backoff_delay ⟨2, 3, 1, 30, true, none⟩ (9 / 10) ∧
     backoff_delay ⟨2, 3, 1, 30, true, none⟩ (9 / 10) ≤
       5 / 4 * min ((1 : ℚ) * 2 ^ 2) 30 ∧
     (record_attempt 100 (9 / 10) ⟨2, 3, 1, 30, true, none⟩).next_attempt_time =
       some (PyTime.ts (100 + backoff_delay ⟨2, 3, 1, 30, true, none⟩ (9 / 10)))) :=
  ⟨(aqlon_c6_backoff ⟨2, 3, 1, 30, false, none⟩ 100 1).1 rfl,
   (aqlon_c6_backoff ⟨2, 3, 1, 30, true, none⟩ 100 (9 / 10)).2 rfl
     (by norm_num) (by norm_num) (by norm_num) (by norm_num)⟩

/-- C7 code-bug evidence: before any attempt is recorded,
`can_retry_now` returns a boolean (`True`), but after one
`record_attempt` the stored `next_attempt_time` is a float timestamp
and the `datetime.now() >= next_attempt_time` comparison raises
`TypeError` (modelled as `none`) instead of returning a boolean. -/
theorem aqlon_c7_can_retry_now_raises :
    can_retry_now 0 ⟨0, 3, 1, 30, false, none⟩ = some true ∧
    can_retry_now 5 (record_attempt 0 1 ⟨0, 3, 1, 30, false, none⟩) = none := by
  constructor <;> rfl

/-! ## The override registry (`app/nodes/manual_override.py`)

`handle_override` is embedded along its `safety/disable` dispatch arm,
acting on the pair (safety-gate level, override record). Expiry and
revocation are the boolean outcomes of `is_expired()` / `.revoked` at
handling time. `parameters["level"]` and `parameters["original_level"]`
are the two parameter entries this arm reads and writes. -/

/-- The fields of `Override` (`manual_override.py` lines 18-51) the
`safety/disable` arm touches. `level_param` is `parameters["level"]`
(caller-supplied, default 0) and `original_level_param` is
`parameters["original_level"]` (absent until first application). -/
structure Override where
  target : String
  action : String
  level_param : Int
  original_level_param : Option Int
  applied : Bool
  revoked : Bool
  expired : Bool
deriving Repr, DecidableEq

/-- The outcome of one `handle_override` call: the resulting safety-gate
level, the updated override record, and the `success` field of the
returned result dictionary. -/
structure OverrideOutcome where
  safety_level : Int
  override : Override
  success : Bool
deriving Repr, DecidableEq

/-- Embedding of `ManualOverrideManager.handle_override`
(`manual_override.py` lines 145-196) restricted to the `safety/disable`
arm: a revoked or expired override is rejected; otherwise the current
safety level is written into `parameters["original_level"]`, the gate is
set to `parameters["level"]` through `set_safety_level`, and the
override is marked applied. -/
def handle_override (safetyLevel : Int) (ov : Override) : OverrideOutcome :=
  if ov.revoked then ⟨safetyLevel, ov, false⟩
  else if ov.expired then ⟨safetyLevel, ov, false⟩
  else if ov.target = "safety" && ov.action = "disable" then
    let original_level := safetyLevel
    let ov2 := { ov with
                   original_level_param := some original_level,
                   applied := true }
    ⟨set_safety_level safetyLevel ov.level_param, ov2, true⟩
  else ⟨safetyLevel, ov, false⟩

/-- C8 code-bug evidence: a valid `safety/disable` override lowering the
level to 0 is applied twice within its window. The first apply records
prior level 2 and sets the gate to 0; the second apply also succeeds and
keeps the gate at 0, but re-records `parameters["original_level"]` as 0
— the current, already-lowered level — so the originally recorded prior
level 2 is lost, contrary to the claim. -/
theorem aqlon_c8_second_apply_clobbers_prior_level :
    (handle_override 2
       ⟨"safety", "disable", 0, none, false, false, false⟩).success = true ∧
    (handle_override 2
       ⟨"safety", "disable", 0, none, false, false, false⟩).safety_level = 0 ∧
    (handle_override 2
       ⟨"safety", "disable", 0, none, false, false, false⟩).override.original_level_param
      = some 2 ∧
    (handle_override
       (handle_override 2
         ⟨"safety", "disable", 0, none, false, false, false⟩).safety_level
       (handle_override 2
         ⟨"safety", "disable", 0, none, false, false, false⟩).override).success = true ∧
    (handle_override
       (handle_override 2
         ⟨"safety", "disable", 0, none, false, false, false⟩).safety_level
       (handle_override 2
         ⟨"safety", "disable", 0, none, false, false, false⟩).override).safety_level = 0 ∧
    (handle_override
       (handle_override 2
         ⟨"safety", "disable", 0, none, false, false, false⟩).safety_level
       (handle_override 2
         ⟨"safety", "disable", 0, none, false, false, false⟩).override).override.original_level_param
      = some 0 := by
  refine ⟨rfl, rfl, rfl, rfl, rfl, rfl⟩

/-! ## The goal completion voter (`app/nodes/goal_completion.py`)

The claims concern the aggregation in
`GoalCompletionChecker.check_completion` (lines 334-411) over the
criterion results that returned a usable (non-`None`) success value.
Each such result carries the criterion's success boolean, its reported
confidence, and the criterion's fixed weight looked up in
`criterion_weights` (default 0.5); its weighted confidence is
`confidence * weight`. -/

/-- One usable criterion result as accumulated in `results`
(`goal_completion.py` lines 344-352). -/
structure CompletionVote where
  success : Bool
  confidence : ℚ
  weight : ℚ
deriving Repr, DecidableEq

/-- The fixed criterion weight table
(`GoalCompletionChecker.__init__`, lines 309-316). -/
def criterion_weights : List (String × ℚ) :=
  [("ExplicitFlagCriterion", 1),
   ("ActionResultCriterion", 0.7),
   ("VisionStateCriterion", 0.6),
   ("TerminalOutputCriterion", 0.8),
   ("UIElementCriterion", 0.7),
   ("LLMCompletionCriterion", 0.9)]

/-- The weight used for a criterion:
`self.criterion_weights.get(criterion_name, 0.5)` (line 338). -/
def criterion_weight (name : String) : ℚ :=
  match criterion_weights.find? (fun kv => kv.1 = name) with
  | some kv => kv.2
  | none => 0.5

/-- `weighted_confidence` of one result (line 351). -/
def weighted_confidence (v : CompletionVote) : ℚ := v.confidence * v.weight

/-- `success_votes = sum(1 for r in results if r["success"])` (line 368). -/
def success_votes (votes : List CompletionVote) : ℕ :=
  (votes.filter (fun v => v.success)).length

/-- `failure_votes = sum(1 for r in results if not r["success"])` (line 369). -/
def failure_votes (votes : List CompletionVote) : ℕ :=
  (votes.filter (fun v => !v.success)).length

/-- `success_confidence`: weighted confidence summed over success votes
(line 372). -/
def success_confidence (votes : List CompletionVote) : ℚ :=
  ((votes.filter (fun v => v.success)).map weighted_confidence).sum

/-- `failure_confidence`: weighted confidence summed over failure votes
(line 373). -/
def failure_confidence (votes : List CompletionVote) : ℚ :=
  ((votes.filter (fun v => !v.success)).map weighted_confidence).sum

/-- The aggregate record returned by `check_completion`. -/
structure CompletionResult where
  completed : Bool
  success : Bool
  confidence : ℚ
  success_score : ℚ
deriving Repr, DecidableEq

/-- Embedding of the aggregation of
`GoalCompletionChecker.check_completion` (lines 356-411) over the usable
criterion results: the empty-results early return, the vote counts, the
weighted confidence sums, the count-majority `is_success`, and the
normalized confidence and success score (0 when the total weighted
confidence is not positive). -/
def check_completion (votes : List CompletionVote) : CompletionResult :=
  if votes.isEmpty then
    { completed := false, success := false, confidence := 0, success_score := 0 }
  else
    let sv := success_votes votes
    let fv := failure_votes votes
    let sc := success_confidence votes
    let fc := failure_confidence votes
    let tc := sc + fc
    let is_completed := decide (0 < sv) || decide (0 < fv)
    let is_success := decide (fv < sv)
    let conf := if 0 < tc then (if is_success then sc / tc else fc / tc) else 0
    let score := if 0 < tc then sc / (sc + fc) else 0
    { completed := is_completed,
      success := is_completed && is_success,
      confidence := conf,
      success_score := score }

lemma votes_total (votes : List CompletionVote) :
    success_votes votes + failure_votes votes = votes.length := by
  induction votes with
  | nil => rfl
  | cons v vs ih =>
      cases hv : v.success <;>
        simp [success_votes, failure_votes, List.filter, hv] at ih ⊢ <;>
        omega

lemma success_confidence_nonneg (votes : List CompletionVote)
    (h : ∀ v ∈ votes, 0 ≤ v.confidence ∧ 0 ≤ v.weight) :
    0 ≤ success_confidence votes := by
  apply List.sum_nonneg
  intro x hx
  rcases List.mem_map.mp hx with ⟨v, hv, rfl⟩
  have hv2 := h v (List.mem_of_mem_filter hv)
  exact mul_nonneg hv2.1 hv2.2

lemma failure_confidence_nonneg (votes : List CompletionVote)
    (h : ∀ v ∈ votes, 0 ≤ v.confidence ∧ 0 ≤ v.weight) :
    0 ≤ failure_confidence votes := by
  apply List.sum_nonneg
  intro x hx
  rcases List.mem_map.mp hx with ⟨v, hv, rfl⟩
  have hv2 := h v (List.mem_of_mem_filter hv)
  exact mul_nonneg hv2.1 hv2.2

/-- C3: over any nonempty set of usable criterion results with
nonnegative confidences and weights, the aggregate satisfies
`completed = (successVotes > 0 or failureVotes > 0)`,
`success = (successVotes > failureVotes)` (a pure count majority),
`confidence = winningWeightedSum / (successWeightedSum + failureWeightedSum)`
and `success_score = successWeightedSum / (successWeightedSum +
failureWeightedSum)` (with the convention that the ratio is 0 when the
total weighted sum is 0, which the code returns explicitly). -/
theorem aqlon_c3_voter_aggregation (votes : List CompletionVote)
    (hne : votes ≠ [])
    (hnn : ∀ v ∈ votes, 0 ≤ v.confidence ∧ 0 ≤ v.weight) :
    (check_completion votes).completed =
      (decide (0 < success_votes votes) || decide (0 < failure_votes votes)) ∧
    (check_completion votes).success =
      decide (failure_votes votes < success_votes votes) ∧
    (check_completion votes).confidence =
      (if failure_votes votes < success_votes votes then
         success_confidence votes else failure_confidence votes) /
        (success_confidence votes + failure_confidence votes) ∧
    (check_completion votes).success_score =
      success_confidence votes /
        (success_confidence votes + failure_confidence votes) := by
  have hlen : votes.length ≠ 0 := fun h => hne (List.length_eq_zero.mp h)
  have hnotempty : votes.isEmpty = false := by
    cases votes with
    | nil => exact absurd rfl hne
    | cons v vs => rfl
  have hcompleted :
      (decide (0 < success_votes votes) || decide (0 < failure_votes votes)) = true := by
    have htot := votes_total votes
    rcases Nat.eq_zero_or_pos (success_votes votes) with hs | hs
    · have hf : 0 < failure_votes votes := by omega
      simp [hf]
    · simp [hs]
  have hsc := success_confidence_nonneg votes hnn
  have hfc := failure_confidence_nonneg votes hnn
  rw [check_completion, if_neg (by simp [hnotempty])]
  refine ⟨rfl, ?_, ?_, ?_⟩
  · dsimp only
    rw [hcompleted, Bool.true_and]
  · dsimp only
    by_cases htc : 0 < success_confidence votes + failure_confidence votes
    · rw [if_pos htc]
      by_cases hmaj : failure_votes votes < success_votes votes
      · rw [if_pos hmaj, if_pos (decide_eq_true hmaj)]
      · rw [if_neg hmaj, if_neg (by simpa using hmaj)]
    · rw [if_neg htc]
      have hzero : success_confidence votes + failure_confidence votes = 0 := by
        linarith
      have hsczero : success_confidence votes = 0 := by linarith
      have hfczero : failure_confidence votes = 0 := by linarith
      rw [hzero, hsczero, hfczero]
      simp
  · dsimp only
    by_cases htc : 0 < success_confidence votes + failure_confidence votes
    · rw [if_pos htc]
    · rw [if_neg htc]
      have hsczero : success_confidence votes = 0 := by linarith
      rw [hsczero]
      simp

/-- Closed instance of `aqlon_c3_voter_aggregation` on the two-vote
scenario of the spec: a success vote (confidence 0.7, weight 0.7)
against a failure vote (confidence 0.8, weight 0.8). -/
theorem aqlon_c3_witness :
    (check_completion [⟨true, 0.7, 0.7⟩, ⟨false, 0.8, 0.8⟩]).completed =
      (decide (0 < success_votes [⟨true, 0.7, 0.7⟩, ⟨false, 0.8, 0.8⟩]) ||
       decide (0 < failure_votes [⟨true, 0.7, 0.7⟩, ⟨false, 0.8, 0.8⟩])) ∧
    (check_completion [⟨true, 0.7, 0.7⟩, ⟨false, 0.8, 0.8⟩]).success =
      decide (failure_votes [⟨true, 0.7, 0.7⟩, ⟨false, 0.8, 0.8⟩] <
              success_votes [⟨true, 0.7, 0.7⟩, ⟨false, 0.8, 0.8⟩]) ∧
    (check_completion [⟨true, 0.7, 0.7⟩, ⟨false, 0.8, 0.8⟩]).confidence =
      (if failure_votes [⟨true, 0.7, 0.7⟩, ⟨false, 0.8, 0.8⟩] <
          success_votes [⟨true, 0.7, 0.7⟩, ⟨false, 0.8, 0.8⟩] then
         success_confidence [⟨true, 0.7, 0.7⟩, ⟨false, 0.8, 0.8⟩]
       else failure_confidence [⟨true, 0.7, 0.7⟩, ⟨false, 0.8, 0.8⟩]) /
        (success_confidence [⟨true, 0.7, 0.7⟩, ⟨false, 0.8, 0.8⟩] +
         failure_confidence [⟨true, 0.7, 0.7⟩, ⟨false, 0.8, 0.8⟩]) ∧
    (check_completion [⟨true, 0.7, 0.7⟩, ⟨false, 0.8, 0.8⟩]).success_score =
      success_confidence [⟨true, 0.7, 0.7⟩, ⟨false, 0.8, 0.8⟩] /
        (success_confidence [⟨true, 0.7, 0.7⟩, ⟨false, 0.8, 0.8⟩] +
         failure_confidence [⟨true, 0.7, 0.7⟩, ⟨false, 0.8, 0.8⟩]) :=
  aqlon_c3_voter_aggregation [⟨true, 0.7, 0.7⟩, ⟨false, 0.8, 0.8⟩]
    (by decide)
    (by
      intro v hv
      rcases List.mem_cons.mp hv with rfl | hv2
      · constructor <;> norm_num
      · rcases List.mem_cons.mp hv2 with rfl | hv3
        · constructor <;> norm_num
        · exact absurd hv3 (List.not_mem_nil v))

/-! ## The goal priority scorer (`app/nodes/goal_prioritizer.py`)

A goal's metadata entry is modelled as absent, malformed (present but
failing the parse/convert, which the code catches), or a parsed value:
for `"deadline"` the value is the signed seconds remaining
(`(deadline - now).total_seconds()`), for `"importance"` the converted
float. Weight configurations range over exactly what
`adjust_weights` (a dict `update`) can install: arbitrary rational
values for the five named factor keys plus arbitrary extra entries,
which enter `total_weight = sum(self.weights.values())` but not the
weighted sum. Python's `round(x, 1)` is modelled as rounding `10 * x`
to the nearest integer (the banker's tie-break differs only at exact
ties and does not affect the bounds); a zero total weight makes the
normalization raise `ZeroDivisionError`, modelled as `none`. -/

/-- A goal-metadata numeric entry: absent, malformed (conversion raises
and is caught), or a parsed value. -/
inductive MetaEntry
  | absent
  | malformed
  | valid (v : ℚ)
deriving Repr, DecidableEq

/-- The fields of a `GoalHistory` row read by the scorer. -/
structure GoalRec where
  id : ℕ
  parent_goal_id : Option ℕ
  priority : ℚ
  goal_text : String
  deadline_meta : MetaEntry
  importance_meta : MetaEntry
  blocks_goals : Bool
deriving Repr, DecidableEq

/-- `urgency_keywords` (`goal_prioritizer.py` line 64). -/
def urgency_keywords : List String :=
  ["urgent", "immediately", "asap", "emergency", "critical"]

/-- `any(keyword in goal.goal_text.lower() for keyword in urgency_keywords)`. -/
def has_urgency_keyword (text : String) : Bool :=
  urgency_keywords.any (fun k => strContainsLower text k)

/-- Embedding of `GoalPrioritizer.evaluate_urgency` (lines 40-68):
baseline 1.0, set from deadline proximity when a deadline parses
(overdue 2.0, under 1h 1.8, under 1d 1.5, under 3d 1.2), +0.5 for an
urgency keyword, capped at 2.0. -/
def evaluate_urgency (g : GoalRec) : ℚ :=
  let u1 : ℚ :=
    match g.deadline_meta with
    | MetaEntry.valid t =>
        if t ≤ 0 then 2
        else if t < 3600 then 1.8
        else if t < 86400 then 1.5
        else if t < 259200 then 1.2
        else 1
    | _ => 1
  let u2 := if has_urgency_keyword g.goal_text then u1 + 0.5 else u1
  min u2 2

/-- `importance_keywords` with their increments (lines 83-92), in
insertion order. -/
def importance_keywords : List (String × ℚ) :=
  [("critical", 0.4), ("important", 0.3), ("essential", 0.3),
   ("crucial", 0.3), ("key", 0.2), ("major", 0.2),
   ("significant", 0.2), ("primary", 0.2)]

/-- Embedding of `GoalPrioritizer.evaluate_importance` (lines 70-98):
baseline 1.0, replaced by the metadata value clamped to [0.5, 2.0] when
it converts, then incremented per keyword found, capped at 2.0. -/
def evaluate_importance (g : GoalRec) : ℚ :=
  let i1 : ℚ :=
    match g.importance_meta with
    | MetaEntry.valid v => min (max v 0.5) 2
    | _ => 1
  let i2 := importance_keywords.foldl
    (fun acc kv => if strContainsLower g.goal_text kv.1 then acc + kv.2 else acc) i1
  min i2 2

/-- Embedding of `GoalPrioritizer.evaluate_dependencies` (lines
100-118): +0.2 per active goal whose parent is this goal, +0.5 when
flagged blocking, capped at 2.0; also returns the dependent count. -/
def evaluate_dependencies (g : GoalRec) (all_goals : List GoalRec) : ℚ × ℕ :=
  let dependents := (all_goals.filter
    (fun o => o.parent_goal_id = some g.id)).length
  let d1 : ℚ := 1 + 0.2 * dependents
  let d2 := if g.blocks_goals then d1 + 0.5 else d1
  (min d2 2, dependents)

/-- A weight configuration of the scorer as installable through
`adjust_weights`: values for the five named factor keys, plus the
values of any extra keys merged into the dict (they contribute to
`total_weight` only). -/
structure Weights where
  user_priority : ℚ
  urgency : ℚ
  importance : ℚ
  dependency : ℚ
  resource_avail : ℚ
  extra : List ℚ
deriving Repr, DecidableEq

/-- The default weights of `GoalPrioritizer.__init__` (lines 23-29). -/
def default_weights : Weights :=
  { user_priority := 2, urgency := 1.5, importance := 1.2,
    dependency := 1, resource_avail := 0.8, extra := [] }

/-- `total_weight = sum(self.weights.values())` (line 144). -/
def total_weight (w : Weights) : ℚ :=
  w.user_priority + w.urgency + w.importance + w.dependency +
    w.resource_avail + w.extra.sum

/-- Python `round(x, 1)`: x rounded to one decimal place. -/
def round1 (x : ℚ) : ℚ := (round (10 * x) : ℤ) / 10

/-- Embedding of `GoalPrioritizer.calculate_priority_score` (lines
120-149): the weighted sum of the factor scores over the factor
weights, normalized by the total weight (`ZeroDivisionError`, i.e.
`none`, when the total weight is zero), scaled to 1-5, clamped to
[1, 5] and rounded to one decimal. -/
def calculate_priority_score (w : Weights) (g : GoalRec)
    (all_goals : List GoalRec) : Option ℚ :=
  let base_priority := g.priority
  let urgency := evaluate_urgency g
  let importance := evaluate_importance g
  let dependency_score := (evaluate_dependencies g all_goals).1
  let resource_avail : ℚ := 1
  let weighted_score :=
    base_priority * w.user_priority + urgency * w.urgency +
    importance * w.importance + dependency_score * w.dependency +
    resource_avail * w.resource_avail
  if total_weight w = 0 then none
  else
    let normalized_score := weighted_score / total_weight w * 4 + 1
    let priority := min (max normalized_score 1) 5
    some (round1 priority)

lemma round1_bounds (x : ℚ) (h1 : 1 ≤ x) (h5 : x ≤ 5) :
    1 ≤ round1 x ∧ round1 x ≤ 5 := by
  have habs := abs_sub_round (10 * x)
  rw [abs_le] at habs
  have hlo : (10 : ℤ) ≤ round (10 * x) := by
    have h9 : (9 : ℚ) < (round (10 * x) : ℤ) := by linarith
    exact_mod_cast by
      have : (9 : ℤ) < round (10 * x) := by exact_mod_cast h9
      omega
  have hhi : round (10 * x) ≤ (50 : ℤ) := by
    have h51 : ((round (10 * x) : ℤ) : ℚ) < 51 := by linarith
    have : round (10 * x) < (51 : ℤ) := by exact_mod_cast h51
    omega
  constructor
  · rw [round1, le_div_iff (by norm_num : (0 : ℚ) < 10)]
    exact_mod_cast hlo
  · rw [round1, div_le_iff (by norm_num : (0 : ℚ) < 10)]
    exact_mod_cast hhi

/-- C9, amended: for every goal (arbitrary priority value, text and
metadata, including absent or malformed deadline entries), every list
of active goals, and every weight configuration whose values sum to a
nonzero total, the priority score is defined and lies within [1, 5]. -/
theorem aqlon_c9_score_bounds (w : Weights) (g : GoalRec)
    (all_goals : List GoalRec) (htw : total_weight w ≠ 0) :
    ∃ s : ℚ, calculate_priority_score w g all_goals = some s ∧
      1 ≤ s ∧ s ≤ 5 := by
  rw [calculate_priority_score]
  dsimp only
  rw [if_neg htw]
  set ns := (g.priority * w.user_priority + evaluate_urgency g * w.urgency +
    evaluate_importance g * w.importance +
    (evaluate_dependencies g all_goals).1 * w.dependency +
    1 * w.resource_avail) / total_weight w * 4 + 1 with hns
  have h1 : 1 ≤ min (max ns 1) 5 :=
    le_min (le_max_right ns 1) (by norm_num)
  have h5 : min (max ns 1) 5 ≤ 5 := min_le_right _ _
  obtain ⟨hb1, hb5⟩ := round1_bounds _ h1 h5
  exact ⟨round1 (min (max ns 1) 5), rfl, hb1, hb5⟩

/-- Closed instance of `aqlon_c9_score_bounds`: the default weights and
a goal with a malformed deadline entry. -/
theorem aqlon_c9_witness :
    ∃ s : ℚ, calculate_priority_score default_weights
      ⟨1, none, 3, "fix the build", MetaEntry.malformed, MetaEntry.absent, false⟩
      [] = some s ∧ 1 ≤ s ∧ s ≤ 5 :=
  aqlon_c9_score_bounds default_weights
    ⟨1, none, 3, "fix the build", MetaEntry.malformed, MetaEntry.absent, false⟩
    [] (by norm_num [total_weight, default_weights])

/-- C9 counterexample: the claim quantifies over every weight
configuration installable via `adjust_weights`, but setting all five
factor weights to 0 makes `total_weight` zero and the normalization
divides by it — `calculate_priority_score` raises `ZeroDivisionError`
(modelled as `none`) instead of producing a score in [1, 5]. -/
theorem aqlon_c9_counterexample :
    calculate_priority_score ⟨0, 0, 0, 0, 0, []⟩
      ⟨1, none, 3, "write docs", MetaEntry.absent, MetaEntry.absent, false⟩
      [] = none := by
  rw [calculate_priority_score]
  dsimp only
  rw [if_pos]
  norm_num [total_weight]

end Aqlon
